import Mathlib

/-!
Verification of the annotation-decision engine of `add-function-return-types`.

This file gives a shallow embedding of the per-node annotation-decision
pipeline of the repository and proves/refutes the frozen claims about it.

The repository contains several near-duplicate historical variants of the
same engine.  We embed three of them:

* `indexProcessNode`    — the oldest variant, `processFile` in `src/index.ts`
  (no options at all);
* `legacyProcessNode`   — `processFile` in `src/addFunctionReturnTypes.ts`
  (option-gated filters, `startsWith('{')` anonymous-object check,
  `type.isAny()` / `type.isUnknown()` checks, no passthrough shortcut);
* `processNode`         — the newest variant, `processFile` in
  `src/add-function-return-types.ts` (the engine exercised by the current
  test suite: adds the `ignoreAnonymousFunctions` filter, the
  parameter-passthrough shortcut, and decides the anonymous-object /
  any / unknown shape exclusions by substring search over the rendered
  type text).

The external type-checker (ts-morph `Project` / TypeScript oracle) is
modelled as per-node data: each candidate node carries the `TypeInfo` the
oracle would report for the node with no return-type annotation, plus a
`resolveThrows` flag marking nodes on which `node.getReturnType()` raises
(the per-node `try`/`catch` of the source is translated by branching on
that flag exactly where `getReturnType` is called).
-/

/-- Rendered information about a ts-morph `Type`, as the engines consume it.
`textAtNode` is `type.getText(node, flags)` (the text that gets written as
the annotation and that the anonymous-object check inspects); `textPlain` is
`type.getText()` with no arguments (the text the newest engine's any/unknown
substring checks inspect); `isAny`/`isUnknown` are `type.isAny()` /
`type.isUnknown()`. -/
structure TypeInfo where
  textAtNode : String
  textPlain : String
  isAny : Bool
  isUnknown : Bool
deriving DecidableEq

/-- One declared parameter of a candidate node: its name and, when present,
the text of its declared type node (`param.getTypeNode()?.getText()`). -/
structure Param where
  name : String
  typeNode : Option String
deriving DecidableEq

/-- The syntax-node kinds the engines discriminate on via
`Node.isFunctionDeclaration` / `isFunctionExpression` / `isArrowFunction` /
`isMethodDeclaration` / `isConstructorDeclaration`.  `other` stands for every
remaining kind. -/
inductive NodeKind where
  | functionDeclaration
  | functionExpression
  | arrowFunction
  | methodDeclaration
  | constructorDeclaration
  | other
deriving DecidableEq

/-- The expression shapes the engines discriminate on inside function bodies:
identifiers (for the passthrough shortcut), function/arrow expressions (for
the higher-order filter), `void`-operator expressions (for the void-arrow
filter), and everything else. -/
inductive Expr where
  | ident (name : String)
  | functionExpression
  | arrowFunction
  | voidExpression
  | other
deriving DecidableEq

/-- A statement of a block body.  `returnStmt e` is a return statement with
optional returned expression; `otherStmt children` abstracts every other
statement, with `children` collecting the statements nested anywhere beneath
it, so that `getDescendantsOfKind(SyntaxKind.ReturnStatement)` on the
enclosing block can be modelled as the pre-order collection of `returnStmt`
nodes of the tree. -/
inductive Stmt where
  | returnStmt (e : Option Expr)
  | otherStmt (children : List Stmt)

/-- A function body (`node.getBody()`): either a block of statements or the
concise expression body of an arrow function. -/
inductive Body where
  | block (statements : List Stmt)
  | exprBody (e : Expr)

/-- The facts about a node's syntactic parent (and grandparent) that the
filters query: variable-declaration parents (with the presence of a type
annotation and of a name), the two immediately-invoked shapes of the IIFE
filter, and the parent kinds the anonymous-function filter recognises. -/
inductive ParentInfo where
  /-- parent satisfies `Node.isVariableDeclaration`; carries the text of
  `parent.getTypeNode()` when present, and `parent.getName()`. -/
  | variableDeclaration (typeNode : Option String) (varName : Option String)
  /-- parent is a parenthesized expression whose own parent is a call
  expression with the parenthesized expression as callee. -/
  | parenthesizedCallee
  /-- parent is a parenthesized expression in any other position. -/
  | parenthesized
  /-- parent is a call expression whose callee is the node itself. -/
  | callCallee
  /-- parent is a call expression with the node in another position. -/
  | callOther
  /-- parent satisfies `Node.isPropertyDeclaration` (class property). -/
  | propertyDeclaration
  /-- parent satisfies `Node.isPropertyAssignment` (object-literal property). -/
  | propertyAssignment
  /-- parent is a binary expression whose operator token is `=`. -/
  | binaryEquals
  /-- parent is a binary expression with any other operator. -/
  | binaryOther
  /-- every other parent. -/
  | otherParent
deriving DecidableEq

/-- A candidate syntax node, together with the answers the ts-morph oracle
gives for it.  `name` is `node.getName()` (absent when undefined), `line` and
`column` are the 1-based position of `node.getStart()` as reported by
`sourceFile.getLineAndColumnAtPos`. -/
structure CandidateNode where
  kind : NodeKind
  name : Option String
  returnTypeNode : Option String
  parent : ParentInfo
  typeParameters : List String
  params : List Param
  body : Option Body
  inferredType : TypeInfo
  resolveThrows : Bool
  line : Nat
  column : Nat

/-- The per-run option set consumed by the decision logic.  Mirrors the
`Options` type of `src/options.ts` (the file-discovery fields `path`,
`shallow`, `ignoreFiles` and `concurrencyLimit` only drive the external file
lister and scheduler and are omitted from the embedded core).  The legacy
engine's `Options` lacks `ignoreAnonymousFunctions`; `legacyProcessNode`
accordingly never reads that field. -/
structure Options where
  ignoreConciseArrowFunctionExpressionsStartingWithVoid : Bool
  ignoreExpressions : Bool
  ignoreFunctionsWithoutTypeParameters : Bool
  ignoreHigherOrderFunctions : Bool
  ignoreIIFEs : Bool
  ignoreTypedFunctionExpressions : Bool
  ignoreFunctions : List String
  overwrite : Bool
  ignoreAnonymousObjects : Bool
  ignoreAny : Bool
  ignoreUnknown : Bool
  ignoreAnonymousFunctions : Bool

/-- The default option values of `src/options.ts` (`defaultOptions`): every
toggle off, both lists empty. -/
def defaultOptions : Options :=
  { ignoreConciseArrowFunctionExpressionsStartingWithVoid := false
    ignoreExpressions := false
    ignoreFunctionsWithoutTypeParameters := false
    ignoreHigherOrderFunctions := false
    ignoreIIFEs := false
    ignoreTypedFunctionExpressions := false
    ignoreFunctions := []
    overwrite := false
    ignoreAnonymousObjects := false
    ignoreAny := false
    ignoreUnknown := false
    ignoreAnonymousFunctions := false }

/-! ## String primitives

JavaScript `String.prototype.startsWith` and `String.prototype.includes`,
defined over the character lists of Lean strings so that everything stays
computable and kernel-reducible. -/

/-- Character-wise prefix test: `charsStart l pat` holds when `pat` is a
prefix of `l`. -/
def charsStart : List Char → List Char → Bool
  | _, [] => true
  | [], _ :: _ => false
  | a :: as, b :: bs => a == b && charsStart as bs

/-- Contiguous-occurrence test: `charsInclude pat l` holds when `pat` occurs
somewhere in `l`. -/
def charsInclude (pat : List Char) : List Char → Bool
  | [] => charsStart [] pat
  | c :: cs => charsStart (c :: cs) pat || charsInclude pat cs

/-- JavaScript `s.startsWith(pat)`. -/
def strStarts (s pat : String) : Bool := charsStart s.data pat.data

/-- JavaScript `s.includes(pat)`. -/
def strIncludes (s pat : String) : Bool := charsInclude pat.data s.data

/-! ## The inclusion filter chain

Each early-`return` of the source's per-node callback that happens before
the engine touches the node is translated to one boolean predicate; the
chain is their disjunction, in source order.  All predicates are pure, so
the disjunction is exactly the short-circuiting sequence of the source. -/

/-- The unconditional kind gate: the node must be a function declaration,
function expression, arrow function or method declaration. -/
def isCandidateKind : NodeKind → Bool
  | .functionDeclaration => true
  | .functionExpression => true
  | .arrowFunction => true
  | .methodDeclaration => true
  | _ => false

/-- Skip nodes that are not function-like. -/
def kindSkip (n : CandidateNode) : Bool := !isCandidateKind n.kind

/-- Constructor check, `Node.isConstructorDeclaration(node)` (kept although
it is unreachable after `kindSkip`, exactly as in the source). -/
def ctorSkip (n : CandidateNode) : Bool := n.kind == .constructorDeclaration

/-- Already-annotated check `!options.overwrite && node.getReturnTypeNode()`:
skip already-annotated nodes unless `overwrite` is set. -/
def annSkip (opts : Options) (n : CandidateNode) : Bool :=
  !opts.overwrite && n.returnTypeNode.isSome

/-- The name consulted by the ignore-names filter: `node.getName()` for
method and function declarations, `undefined` otherwise. -/
def declaredName (n : CandidateNode) : Option String :=
  if n.kind == .methodDeclaration || n.kind == .functionDeclaration then n.name
  else none

/-- Ignored-names check `name && options.ignoreFunctions.includes(name)`. -/
def nameSkip (opts : Options) (n : CandidateNode) : Bool :=
  match declaredName n with
  | some nm => opts.ignoreFunctions.contains nm
  | none => false

/-- Expression kinds:
`Node.isFunctionExpression(node) || Node.isArrowFunction(node)`. -/
def isExprKind (k : NodeKind) : Bool :=
  k == .functionExpression || k == .arrowFunction

/-- Filter for `ignoreExpressions`. -/
def exprSkip (opts : Options) (n : CandidateNode) : Bool :=
  opts.ignoreExpressions && isExprKind n.kind

/-- Filter for `ignoreTypedFunctionExpressions`: the parent is a variable
declaration that itself carries a type annotation. -/
def typedExprSkip (opts : Options) (n : CandidateNode) : Bool :=
  opts.ignoreTypedFunctionExpressions && isExprKind n.kind &&
    (match n.parent with
     | .variableDeclaration tn _ => tn.isSome
     | _ => false)

/-- Filter for `ignoreFunctionsWithoutTypeParameters`. -/
def noTypeParamsSkip (opts : Options) (n : CandidateNode) : Bool :=
  opts.ignoreFunctionsWithoutTypeParameters && n.typeParameters.length == 0

/-- Filter for `ignoreHigherOrderFunctions`, translated literally: when the flag
is set the callback returns early unless the body is a block consisting of
exactly one return statement whose returned expression is not a
function/arrow expression.  (Note the early returns: with the flag set, a
missing or non-block body, a block with a number of statements different
from one, and a single non-return statement all cause a skip.) -/
def higherOrderSkip (opts : Options) (n : CandidateNode) : Bool :=
  opts.ignoreHigherOrderFunctions &&
    (match n.body with
     | none => true
     | some (.exprBody _) => true
     | some (.block stmts) =>
       match stmts with
       | [st] =>
         (match st with
          | .returnStmt e =>
            (match e with
             | some .functionExpression => true
             | some .arrowFunction => true
             | _ => false)
          | .otherStmt _ => true)
       | _ => true)

/-- Filter for `ignoreConciseArrowFunctionExpressionsStartingWithVoid`:
arrow function whose body is a `void`-operator expression. -/
def voidArrowSkip (opts : Options) (n : CandidateNode) : Bool :=
  opts.ignoreConciseArrowFunctionExpressionsStartingWithVoid &&
    n.kind == .arrowFunction &&
    (match n.body with
     | some (.exprBody .voidExpression) => true
     | _ => false)

/-- Filter for `ignoreIIFEs`: the parent (possibly through one parenthesized
layer) is a call expression whose callee is the node. -/
def iifeSkip (opts : Options) (n : CandidateNode) : Bool :=
  opts.ignoreIIFEs &&
    (match n.parent with
     | .parenthesizedCallee => true
     | .callCallee => true
     | _ => false)

/-- Filter for `ignoreAnonymousFunctions` (newest engine only): unnamed function
expressions, and arrow functions whose parent is neither a named variable
declaration, a class property declaration, an object-literal property
assignment, nor an `=` assignment. -/
def anonymousSkip (opts : Options) (n : CandidateNode) : Bool :=
  opts.ignoreAnonymousFunctions &&
    ((n.kind == .functionExpression && n.name.isNone) ||
     (n.kind == .arrowFunction &&
       (match n.parent with
        | .variableDeclaration _ varName => varName.isNone
        | .propertyDeclaration => false
        | .propertyAssignment => false
        | .binaryEquals => false
        | _ => true)))

/-- The pre-resolution filter chain of the legacy engine
(`src/addFunctionReturnTypes.ts`), in source order. -/
def legacyPreSkip (opts : Options) (n : CandidateNode) : Bool :=
  kindSkip n || ctorSkip n || annSkip opts n || nameSkip opts n ||
    exprSkip opts n || typedExprSkip opts n || noTypeParamsSkip opts n ||
    higherOrderSkip opts n || voidArrowSkip opts n || iifeSkip opts n

/-- The pre-resolution filter chain of the newest engine
(`src/add-function-return-types.ts`): the legacy chain followed by the
anonymous-function filter. -/
def preSkip (opts : Options) (n : CandidateNode) : Bool :=
  legacyPreSkip opts n || anonymousSkip opts n

/-! ## Return-type resolution -/

/-- Remove the node's return-type annotation (`node.setReturnType('')`). -/
def clearAnn (n : CandidateNode) : CandidateNode :=
  { n with returnTypeNode := none }

/-- Write a return-type annotation (`node.setReturnType(t)`). -/
def setAnn (n : CandidateNode) (t : String) : CandidateNode :=
  { n with returnTypeNode := some t }

mutual
/-- Pre-order collection of the return statements beneath one statement,
with their returned expressions — the model of
`block.getDescendantsOfKind(SyntaxKind.ReturnStatement)` restricted to that
statement. -/
def returnsOfStmt : Stmt → List (Option Expr)
  | .returnStmt e => [e]
  | .otherStmt children => returnsOfStmts children

/-- Pre-order collection of the return statements beneath a statement
list. -/
def returnsOfStmts : List Stmt → List (Option Expr)
  | [] => []
  | s :: rest => returnsOfStmt s ++ returnsOfStmts rest
end

/-- The parameter-passthrough shortcut of the newest engine (its lines
computing `returnTypeSet`): if the block body has exactly one
return-statement descendant whose expression is an identifier — or the
concise arrow body is an identifier — and that identifier names one of the
node's own parameters carrying a declared type, the result is that
parameter's declared type text. -/
def passthroughOf (n : CandidateNode) : Option String :=
  match n.body with
  | none => none
  | some b =>
    let returnExpr : Option Expr :=
      match b with
      | .block stmts =>
        let rets := returnsOfStmts stmts
        if rets.length == 1 then rets.headD none else none
      | .exprBody e => some e
    match returnExpr with
    | some (.ident nm) =>
      (match n.params.find? (fun p => p.name == nm) with
       | some p => p.typeNode
       | none => none)
    | _ => none

/-- The outcome of running one engine's per-node callback on one node:
the node's final state, whether the engine recorded a modification
(the per-file `modified` flag is the disjunction of these), and — when the
oracle raised — the 1-based line/column recorded by the `catch` logger. -/
structure NodeResult where
  node : CandidateNode
  modified : Bool
  logged : Option (Nat × Nat)

/-- The per-node callback of the oldest engine, `processFile` in
`src/index.ts`: no options; skips constructors and annotated nodes, then
skips `any`, `unknown` and any type text containing an object literal, else
annotates. -/
def indexProcessNode (n : CandidateNode) : NodeResult :=
  if isCandidateKind n.kind then
    if n.kind == .constructorDeclaration || n.returnTypeNode.isSome then
      ⟨n, false, none⟩
    else if n.resolveThrows then ⟨n, false, some (n.line, n.column)⟩
    else
      let t := n.inferredType
      if t.isAny || t.isUnknown || strIncludes t.textAtNode "\x7b" then
        ⟨n, false, none⟩
      else ⟨setAnn n t.textAtNode, true, none⟩
  else ⟨n, false, none⟩

/-- The per-node callback of the legacy engine, `processFile` in
`src/addFunctionReturnTypes.ts`.  After the filter chain, `overwrite` clears
an existing annotation, the oracle resolves the (now unconstrained) return
type, the three shape exclusions run (`startsWith('{')`, `type.isAny()`,
`type.isUnknown()`), and otherwise the type text is written and the
modified flag raised.  A throw at `getReturnType` lands in the `catch`
logger; note it happens after the `overwrite` clearing. -/
def legacyProcessNode (opts : Options) (n : CandidateNode) : NodeResult :=
  if legacyPreSkip opts n then ⟨n, false, none⟩
  else
    let n1 := if opts.overwrite then clearAnn n else n
    if n.resolveThrows then ⟨n1, false, some (n.line, n.column)⟩
    else
      let t := n.inferredType
      if opts.ignoreAnonymousObjects && strStarts t.textAtNode "\x7b" then
        ⟨n1, false, none⟩
      else if opts.ignoreAny && t.isAny then ⟨n1, false, none⟩
      else if opts.ignoreUnknown && t.isUnknown then ⟨n1, false, none⟩
      else ⟨setAnn n1 t.textAtNode, true, none⟩

/-- The per-node callback of the newest engine, `processFile` in
`src/add-function-return-types.ts`.  After the filter chain and the
`overwrite` clearing, the parameter-passthrough shortcut may annotate and
return early; otherwise the oracle resolves the type and the three shape
exclusions are decided by substring search (`typeText.includes('{')`,
`type.getText().includes('any')`, `type.getText().includes('unknown')`). -/
def processNode (opts : Options) (n : CandidateNode) : NodeResult :=
  if preSkip opts n then ⟨n, false, none⟩
  else
    let n1 := if opts.overwrite then clearAnn n else n
    match passthroughOf n with
    | some paramTypeText => ⟨setAnn n1 paramTypeText, true, none⟩
    | none =>
      if n.resolveThrows then ⟨n1, false, some (n.line, n.column)⟩
      else
        let t := n.inferredType
        if opts.ignoreAnonymousObjects && strIncludes t.textAtNode "\x7b" then
          ⟨n1, false, none⟩
        else if opts.ignoreAny && strIncludes t.textPlain "any" then
          ⟨n1, false, none⟩
        else if opts.ignoreUnknown && strIncludes t.textPlain "unknown" then
          ⟨n1, false, none⟩
        else ⟨setAnn n1 t.textAtNode, true, none⟩

/-! ## File-level traversal and persistence -/

/-- One file: its path and its candidate nodes in traversal order.  (The
oracle answers are per-node data, so non-function descendants — which every
engine skips at the kind gate — need not be represented.) -/
structure SourceFile where
  path : String
  nodes : List CandidateNode

/-- The outcome of one engine pass over one file: the persisted file (the
mutated tree when `sourceFile.save()` ran, the untouched input otherwise),
whether a disk write happened (`modified`), and the error-log lines with
file path and 1-based line/column. -/
structure FileResult where
  file : SourceFile
  saved : Bool
  log : List (String × Nat × Nat)

/-- The legacy engine's `processFile`: run the callback over every node,
save exactly when some node raised the modified flag. -/
def legacyProcessFile (opts : Options) (f : SourceFile) : FileResult :=
  let results := f.nodes.map (legacyProcessNode opts)
  let modified := results.any (fun r => r.modified)
  { file := if modified then ⟨f.path, results.map (fun r => r.node)⟩ else f
    saved := modified
    log := results.filterMap
      (fun r => r.logged.map (fun lc => (f.path, lc.1, lc.2))) }

/-- The persisted file after one legacy-engine run (each run re-reads the
file from disk into a fresh project, so consecutive runs compose this
function). -/
def runOnce (opts : Options) (f : SourceFile) : SourceFile :=
  (legacyProcessFile opts f).file

/-! ## Helper lemmas

Facts about the legacy engine used to settle the idempotence and frame
claims, plus skip lemmas about the newest engine's shape exclusions. -/

/-- With `overwrite` off, a freshly annotated node is caught by the
already-annotated filter on a later pass. -/
theorem legacyPreSkip_setAnn_true (opts : Options) (n : CandidateNode)
    (t : String) (hO : opts.overwrite = false) :
    legacyPreSkip opts (setAnn n t) = true := by
  simp [legacyPreSkip, annSkip, setAnn, hO]

/-- Re-processing the node a legacy pass produced leaves it unchanged. -/
theorem legacyNode_node_idem (opts : Options) (n : CandidateNode) :
    (legacyProcessNode opts (legacyProcessNode opts n).node).node =
      (legacyProcessNode opts n).node := by
  by_cases hp : legacyPreSkip opts n
  · simp [legacyProcessNode, hp]
  · by_cases hO : opts.overwrite <;> by_cases hT : n.resolveThrows <;>
    by_cases s1 : opts.ignoreAnonymousObjects &&
        strStarts n.inferredType.textAtNode "\x7b" <;>
    by_cases s2 : opts.ignoreAny && n.inferredType.isAny <;>
    by_cases s3 : opts.ignoreUnknown && n.inferredType.isUnknown <;>
    simp [legacyProcessNode, hp, hO, hT, s1, s2, s3, clearAnn, setAnn,
      legacyPreSkip_setAnn_true] <;>
    (try (split <;> rfl))

/-- With `overwrite` off, re-processing the node a legacy pass produced
never raises the modified flag again. -/
theorem legacyNode_nomod (opts : Options) (n : CandidateNode)
    (hO : opts.overwrite = false) :
    (legacyProcessNode opts (legacyProcessNode opts n).node).modified =
      false := by
  by_cases hp : legacyPreSkip opts n
  · simp [legacyProcessNode, hp]
  · by_cases hT : n.resolveThrows <;>
    by_cases s1 : opts.ignoreAnonymousObjects &&
        strStarts n.inferredType.textAtNode "\x7b" <;>
    by_cases s2 : opts.ignoreAny && n.inferredType.isAny <;>
    by_cases s3 : opts.ignoreUnknown && n.inferredType.isUnknown <;>
    simp [legacyProcessNode, hp, hO, hT, s1, s2, s3,
      legacyPreSkip_setAnn_true]

/-- Content idempotence of the legacy engine: a second pass over the
persisted output of a first pass persists the identical file. -/
theorem runOnce_idem (opts : Options) (f : SourceFile) :
    runOnce opts (runOnce opts f) = runOnce opts f := by
  obtain ⟨p, ns⟩ := f
  by_cases hm : (ns.map (legacyProcessNode opts)).any (fun r => r.modified)
  · have hfile : runOnce opts ⟨p, ns⟩ =
        ⟨p, ns.map (fun n => (legacyProcessNode opts n).node)⟩ := by
      simp [runOnce, legacyProcessFile, hm, List.map_map, Function.comp]
    rw [hfile]
    by_cases hm2 : ((ns.map (fun n => (legacyProcessNode opts n).node)).map
        (legacyProcessNode opts)).any (fun r => r.modified)
    · simp only [runOnce, legacyProcessFile, hm2, if_true, List.map_map]
      simp [Function.comp, legacyNode_node_idem]
    · simp only [runOnce, legacyProcessFile]
      rw [if_neg hm2]
  · have hfile : runOnce opts ⟨p, ns⟩ = ⟨p, ns⟩ := by
      simp [runOnce, legacyProcessFile, hm]
    rw [hfile, hfile]

/-- With `overwrite` off, the second legacy pass saves nothing. -/
theorem legacy_second_nowrite (opts : Options) (f : SourceFile)
    (hO : opts.overwrite = false) :
    (legacyProcessFile opts (runOnce opts f)).saved = false := by
  obtain ⟨p, ns⟩ := f
  by_cases hm : (ns.map (legacyProcessNode opts)).any (fun r => r.modified)
  · have hfile : runOnce opts ⟨p, ns⟩ =
        ⟨p, ns.map (fun n => (legacyProcessNode opts n).node)⟩ := by
      simp [runOnce, legacyProcessFile, hm, List.map_map, Function.comp]
    rw [hfile]
    simp only [legacyProcessFile, List.map_map]
    rw [List.any_eq_false]
    intro r hr
    simp only [List.mem_map, Function.comp] at hr
    obtain ⟨n, _, rfl⟩ := hr
    simp [legacyNode_nomod opts n hO]
  · have hfile : runOnce opts ⟨p, ns⟩ = ⟨p, ns⟩ := by
      simp [runOnce, legacyProcessFile, hm]
    rw [hfile]
    simpa [legacyProcessFile] using hm

/-- When the newest engine reaches the inference path and the rendered
plain type text contains the characters of "any", an enabled `ignoreAny`
prevents any modification of the node. -/
theorem processNode_any_text_skip (opts : Options) (n : CandidateNode)
    (h1 : preSkip opts n = false)
    (h2 : passthroughOf n = none)
    (h3 : n.resolveThrows = false)
    (h4 : opts.ignoreAny = true)
    (h5 : strIncludes n.inferredType.textPlain "any" = true) :
    (processNode opts n).modified = false := by
  by_cases hA : opts.ignoreAnonymousObjects &&
      strIncludes n.inferredType.textAtNode "\x7b" <;>
  simp [processNode, h1, h2, h3, h4, h5, hA]

/-- When the newest engine reaches the inference path and the rendered
plain type text contains the characters of "unknown", an enabled
`ignoreUnknown` prevents any modification of the node. -/
theorem processNode_unknown_text_skip (opts : Options) (n : CandidateNode)
    (h1 : preSkip opts n = false)
    (h2 : passthroughOf n = none)
    (h3 : n.resolveThrows = false)
    (h4 : opts.ignoreUnknown = true)
    (h5 : strIncludes n.inferredType.textPlain "unknown" = true) :
    (processNode opts n).modified = false := by
  by_cases hA : opts.ignoreAnonymousObjects &&
      strIncludes n.inferredType.textAtNode "\x7b" <;>
  by_cases hAny : opts.ignoreAny &&
      strIncludes n.inferredType.textPlain "any" <;>
  simp [processNode, h1, h2, h3, h4, h5, hA, hAny]

/-! ## Concrete instances

Small concrete nodes, option sets and files used by the per-claim
counterexamples and witnesses.  They correspond to short TypeScript inputs,
with the oracle fields filled with the texts the TypeScript checker reports
for them. -/

/-- A plain named function declaration with no annotation, no parameters and
no body recorded; the pieces each instance needs are overridden. -/
def baseNode : CandidateNode :=
  { kind := .functionDeclaration
    name := none
    returnTypeNode := none
    parent := .otherParent
    typeParameters := []
    params := []
    body := none
    inferredType := ⟨"void", "void", false, false⟩
    resolveThrows := false
    line := 1
    column := 1 }

/-- Model of `const arrowNormal = () => 42;` — an arrow function with a
concise (non-block) numeric body, inferred type `number`. -/
def arrowNormalNode : CandidateNode :=
  { baseNode with
    kind := .arrowFunction
    parent := .variableDeclaration none (some "arrowNormal")
    body := some (.exprBody .other)
    inferredType := ⟨"number", "number", false, false⟩ }

/-- Option set with only the higher-order exclusion enabled. -/
def higherOrderOptions : Options :=
  { defaultOptions with ignoreHigherOrderFunctions := true }

/-- Option set with `overwrite` and `ignoreAny` enabled. -/
def overwriteAnyOptions : Options :=
  { defaultOptions with overwrite := true, ignoreAny := true }

/-- Model of `function returnsAny(): string { ... }` whose body really
produces `any`: it carries an existing (wrong) annotation and the oracle
reports the dynamic type for the unconstrained node. -/
def annotatedAnyNode : CandidateNode :=
  { baseNode with
    name := some "returnsAny"
    returnTypeNode := some "string"
    inferredType := ⟨"any", "any", true, false⟩ }

/-- Model of `function getNormalType() { return 'string' }`. -/
def normalTypeNode : CandidateNode :=
  { baseNode with
    name := some "getNormalType"
    inferredType := ⟨"string", "string", false, false⟩ }

/-- A two-node file: an annotated any-returning function followed by an
annotatable one. -/
def annotatedAnyFile : SourceFile := ⟨"sample.ts", [annotatedAnyNode, normalTypeNode]⟩

/-- Option set with only `overwrite` enabled. -/
def overwriteOptions : Options := { defaultOptions with overwrite := true }

/-- Model of `function greet(name: string) { return 'Hello, ' + name }`. -/
def greetNode : CandidateNode :=
  { baseNode with
    name := some "greet"
    params := [⟨"name", some "string"⟩]
    body := some (.block [.returnStmt (some .other)])
    inferredType := ⟨"string", "string", false, false⟩ }

/-- A one-node file holding `greetNode`. -/
def greetFile : SourceFile := ⟨"greet.ts", [greetNode]⟩

/-- Option set with only the anonymous-object exclusion enabled. -/
def anonymousObjectOptions : Options :=
  { defaultOptions with ignoreAnonymousObjects := true }

/-- Model of `async function getPromiseObject() { return Promise.resolve(
\x7b foo: 'bar' \x7d) }`: the resolved return type is an object literal
wrapped in one level of Promise. -/
def promiseObjectNode : CandidateNode :=
  { baseNode with
    name := some "getPromiseObject"
    body := some (.block [.returnStmt (some .other)])
    inferredType := ⟨"Promise<\x7b foo: string; \x7d>",
      "Promise<\x7b foo: string; \x7d>", false, false⟩ }

/-- Model of `function getArrayAnonymous() { return [\x7b foo: 'bar' \x7d] }`:
the resolved return type is an object literal wrapped in an array. -/
def arrayObjectNode : CandidateNode :=
  { baseNode with
    name := some "getArrayAnonymous"
    body := some (.block [.returnStmt (some .other)])
    inferredType := ⟨"\x7b foo: string; \x7d[]",
      "\x7b foo: string; \x7d[]", false, false⟩ }

/-- Model of `function getRecordAnonymous() \x7b ... \x7d` returning an
object literal wrapped in a Record. -/
def recordObjectNode : CandidateNode :=
  { baseNode with
    name := some "getRecordAnonymous"
    body := some (.block [.returnStmt (some .other)])
    inferredType := ⟨"Record<string, \x7b foo: string; \x7d>",
      "Record<string, \x7b foo: string; \x7d>", false, false⟩ }

/-- Model of `async function getNormalType() { return Promise.resolve(
'string') }`: a wrapped type with no object literal in it. -/
def promiseStringNode : CandidateNode :=
  { baseNode with
    name := some "getPromiseString"
    body := some (.block [.returnStmt (some .other)])
    inferredType := ⟨"Promise<string>", "Promise<string>", false, false⟩ }

/-- Option set with only `ignoreAny` enabled. -/
def ignoreAnyOptions : Options := { defaultOptions with ignoreAny := true }

/-- Model of `function passesAnyThrough(x: any) { return x }`: the resolved
return type is the dynamic type, and the single returned expression is the
declared-`any` parameter. -/
def passesAnyThroughNode : CandidateNode :=
  { baseNode with
    name := some "passesAnyThrough"
    params := [⟨"x", some "any"⟩]
    body := some (.block [.returnStmt (some (.ident "x"))])
    inferredType := ⟨"any", "any", true, false⟩ }

/-- Model of `async function returnsPromiseAny() { ... }` with resolved
return type `Promise<any>`. -/
def promiseAnyNode : CandidateNode :=
  { baseNode with
    name := some "returnsPromiseAny"
    body := some (.block [.returnStmt (some .other)])
    inferredType := ⟨"Promise<any>", "Promise<any>", false, false⟩ }

/-- Model of `function passesObjThrough(x: \x7b a: string \x7d) \x7b
doSomething(); return x \x7d`: a two-statement block body with exactly one
return-statement descendant, returning the object-typed parameter. -/
def passesObjThroughNode : CandidateNode :=
  { baseNode with
    name := some "passesObjThrough"
    params := [⟨"x", some "\x7b a: string \x7d"⟩]
    body := some (.block [.otherStmt [], .returnStmt (some (.ident "x"))])
    inferredType := ⟨"\x7b a: string; \x7d", "\x7b a: string; \x7d",
      false, false⟩ }

/-- Model of `function id<T>(x: T) { return x }`. -/
def idNode : CandidateNode :=
  { baseNode with
    name := some "id"
    typeParameters := ["T"]
    params := [⟨"x", some "T"⟩]
    body := some (.block [.returnStmt (some (.ident "x"))])
    inferredType := ⟨"T", "T", false, false⟩ }

/-- Model of a class constructor declaration. -/
def ctorNode : CandidateNode :=
  { baseNode with kind := .constructorDeclaration }

/-- Model of a node on which `node.getReturnType()` raises while it carries
an existing annotation (positioned at line 3, column 5). -/
def throwingAnnotatedNode : CandidateNode :=
  { baseNode with
    name := some "fragile"
    returnTypeNode := some "number"
    resolveThrows := true
    line := 3
    column := 5
    inferredType := ⟨"number", "number", false, false⟩ }

/-- A two-node file: the throwing annotated node followed by an annotatable
one. -/
def throwingFile : SourceFile :=
  ⟨"crash.ts", [throwingAnnotatedNode, normalTypeNode]⟩

/-- Model of an unannotated node on which `node.getReturnType()` raises
(positioned at line 7, column 2). -/
def throwingPlainNode : CandidateNode :=
  { baseNode with
    name := some "alsoFragile"
    resolveThrows := true
    line := 7
    column := 2 }

/-- Option set with all three shape exclusions enabled. -/
def allShapeOptions : Options :=
  { defaultOptions with
    ignoreAnonymousObjects := true, ignoreAny := true, ignoreUnknown := true }

/-- Model of `const passAny = (value: any) => value;`. -/
def passValueArrowNode : CandidateNode :=
  { baseNode with
    kind := .arrowFunction
    parent := .variableDeclaration none (some "passAny")
    params := [⟨"value", some "any"⟩]
    body := some (.exprBody (.ident "value"))
    inferredType := ⟨"any", "any", true, false⟩ }

/-- Model of `function getCompany() { ... }` returning a named type whose
name happens to contain the letters "any". -/
def companyNode : CandidateNode :=
  { baseNode with
    name := some "getCompany"
    body := some (.block [.returnStmt (some .other)])
    inferredType := ⟨"Company", "Company", false, false⟩ }

/-! ## Claims -/

/-- Claim C1 (refuted — code bug): the claim says the higher-order predicate
excludes a node if and only if its body is a single statement returning a
function/arrow expression, and that any other body shape remains eligible.
In both option-driven engines, however, the flag's early returns also skip
every candidate whose body is missing, is a concise expression body, has a
number of statements different from one, or whose single statement is not a
return.  Concretely, `const arrowNormal = () => 42;` is skipped by both
engines when the flag is on, yet annotated `number` when it is off — the
flag alone causes the exclusion, contradicting the claim (and the README's
description of the option). -/
theorem c1_higher_order_flag_overskips :
    legacyProcessNode higherOrderOptions arrowNormalNode =
      ⟨arrowNormalNode, false, none⟩ ∧
    processNode higherOrderOptions arrowNormalNode =
      ⟨arrowNormalNode, false, none⟩ ∧
    legacyProcessNode defaultOptions arrowNormalNode =
      ⟨setAnn arrowNormalNode "number", true, none⟩ ∧
    processNode defaultOptions arrowNormalNode =
      ⟨setAnn arrowNormalNode "number", true, none⟩ :=
  ⟨rfl, rfl, rfl, rfl⟩

/-- Claim C7: a class constructor is never annotated and never mutated,
under every option set and in all three engine variants: the kind gate runs
before any option-gated predicate and rejects constructors. -/
theorem c7_constructors_never_annotated (opts : Options) (n : CandidateNode)
    (h : n.kind = .constructorDeclaration) :
    legacyProcessNode opts n = ⟨n, false, none⟩ ∧
    processNode opts n = ⟨n, false, none⟩ ∧
    indexProcessNode n = ⟨n, false, none⟩ := by
  simp [legacyProcessNode, processNode, indexProcessNode, preSkip,
    legacyPreSkip, kindSkip, isCandidateKind, h]

/-- Witness for C7: a concrete constructor node under an option set with
every shape exclusion enabled is returned untouched by all three engines. -/
theorem c7_constructors_never_annotated_witness :
    legacyProcessNode allShapeOptions ctorNode = ⟨ctorNode, false, none⟩ ∧
    processNode allShapeOptions ctorNode = ⟨ctorNode, false, none⟩ ∧
    indexProcessNode ctorNode = ⟨ctorNode, false, none⟩ :=
  c7_constructors_never_annotated allShapeOptions ctorNode rfl

/-- Claim C9: in the newest engine, whenever the parameter-passthrough path
fires on a node that survived the pre-resolution filters, the annotation is
written for every option set — the quantification over all options includes
`ignoreAnonymousObjects`, `ignoreAny` and `ignoreUnknown` enabled, so the
shape exclusions are never consulted on this path. -/
theorem c9_passthrough_bypasses_shape_exclusions (opts : Options)
    (n : CandidateNode) (paramTypeText : String)
    (h1 : preSkip opts n = false)
    (h2 : passthroughOf n = some paramTypeText) :
    processNode opts n =
      ⟨setAnn (if opts.overwrite then clearAnn n else n) paramTypeText,
        true, none⟩ := by
  simp [processNode, h1, h2]

/-- Witness for C9: `const passAny = (value: any) => value;` is annotated
`any` although `ignoreAny` (and the other two shape exclusions) are
enabled. -/
theorem c9_passthrough_bypasses_shape_exclusions_witness :
    processNode allShapeOptions passValueArrowNode =
      ⟨setAnn passValueArrowNode "any", true, none⟩ := by
  have h := c9_passthrough_bypasses_shape_exclusions allShapeOptions
    passValueArrowNode "any" rfl rfl
  simpa using h

/-- Claim C10: in the newest engine the `ignoreAny` / `ignoreUnknown`
exclusions are substring searches over the rendered plain type text, so on
the inference path every node whose rendered text merely contains "any"
(resp. "unknown") is skipped, whether or not its type is the dynamic `any`
(resp. `unknown`) type. -/
theorem c10_any_unknown_exclusions_are_substring_checks (opts : Options)
    (n : CandidateNode)
    (h1 : preSkip opts n = false)
    (h2 : passthroughOf n = none)
    (h3 : n.resolveThrows = false) :
    (opts.ignoreAny = true →
      strIncludes n.inferredType.textPlain "any" = true →
      (processNode opts n).modified = false) ∧
    (opts.ignoreUnknown = true →
      strIncludes n.inferredType.textPlain "unknown" = true →
      (processNode opts n).modified = false) :=
  ⟨fun h4 h5 => processNode_any_text_skip opts n h1 h2 h3 h4 h5,
   fun h4 h5 => processNode_unknown_text_skip opts n h1 h2 h3 h4 h5⟩

/-- Witness for C10: `function getCompany()` returning the named type
`Company` — not the dynamic type, but its name contains the letters "any" —
is skipped when `ignoreAny` is enabled. -/
theorem c10_any_unknown_substring_witness :
    (processNode ignoreAnyOptions companyNode).modified = false ∧
    companyNode.inferredType.isAny = false :=
  ⟨(c10_any_unknown_exclusions_are_substring_checks ignoreAnyOptions
      companyNode rfl rfl rfl).1 rfl (by decide), rfl⟩

/-- Claim C5 (refuted): the claim says every candidate whose resolved
return type is `any` (or `Promise<any>`) is excluded under `ignoreAny` and
receives no annotation.  The parameter-passthrough shortcut of the newest
engine runs before the shape exclusions: `function passesAnyThrough(x: any)
\x7b return x \x7d`, whose resolved return type is the dynamic type, is
annotated `any` although `ignoreAny` is enabled. -/
theorem c5_any_node_annotated_despite_ignoreAny :
    passesAnyThroughNode.inferredType.isAny = true ∧
    (processNode ignoreAnyOptions passesAnyThroughNode).modified = true ∧
    (processNode ignoreAnyOptions passesAnyThroughNode).node.returnTypeNode =
      some "any" :=
  ⟨rfl, rfl, rfl⟩

/-- Claim C5 as amended: every candidate node that reaches the full
inference path (the parameter-passthrough shortcut does not fire) and whose
resolved plain type text is `any` or `Promise<any>` is excluded under
`ignoreAny` and receives no annotation — and analogously for `unknown` /
`Promise<unknown>` under `ignoreUnknown`. -/
theorem c5_inference_path_excludes_any_and_promise_any (opts : Options)
    (n : CandidateNode)
    (h1 : preSkip opts n = false)
    (h2 : passthroughOf n = none)
    (h3 : n.resolveThrows = false) :
    (opts.ignoreAny = true →
      (n.inferredType.textPlain = "any" ∨
        n.inferredType.textPlain = "Promise<any>") →
      (processNode opts n).modified = false) ∧
    (opts.ignoreUnknown = true →
      (n.inferredType.textPlain = "unknown" ∨
        n.inferredType.textPlain = "Promise<unknown>") →
      (processNode opts n).modified = false) := by
  constructor
  · intro h4 h5
    refine processNode_any_text_skip opts n h1 h2 h3 h4 ?_
    rcases h5 with h5 | h5 <;> rw [h5] <;> decide
  · intro h4 h5
    refine processNode_unknown_text_skip opts n h1 h2 h3 h4 ?_
    rcases h5 with h5 | h5 <;> rw [h5] <;> decide

/-- Witness for the amended C5: a function resolving to `Promise<any>` is
skipped when `ignoreAny` is enabled. -/
theorem c5_inference_path_excludes_promise_any_witness :
    (processNode ignoreAnyOptions promiseAnyNode).modified = false :=
  (c5_inference_path_excludes_any_and_promise_any ignoreAnyOptions
    promiseAnyNode rfl rfl rfl).1 rfl (Or.inr rfl)

/-- Claim C4: with the anonymous-object exclusion enabled, the newest
engine's inference path never writes an annotation whose text contains an
object-literal brace — in particular object literals wrapped in one level
of `Promise<...>`, `T[]` or `Record<K,V>` are excluded; and concretely, a
function resolving to `Promise<\x7b foo: string; \x7d>` (likewise the
array- and Record-wrapped object literals) is skipped when the exclusion is
on and annotated with exactly that text when it is off. -/
theorem c4_anonymous_object_exclusion_sees_through_wrappers
    (opts : Options) (n : CandidateNode) (t : String)
    (hFlag : opts.ignoreAnonymousObjects = true)
    (hPass : passthroughOf n = none)
    (hMod : (processNode opts n).modified = true)
    (hAnn : (processNode opts n).node.returnTypeNode = some t) :
    strIncludes t "\x7b" = false ∧
    (processNode anonymousObjectOptions promiseObjectNode).modified = false ∧
    (processNode anonymousObjectOptions arrayObjectNode).modified = false ∧
    (processNode anonymousObjectOptions recordObjectNode).modified = false ∧
    (processNode defaultOptions promiseObjectNode).node.returnTypeNode =
      some "Promise<\x7b foo: string; \x7d>" := by
  refine ⟨?_, rfl, rfl, rfl, rfl⟩
  by_cases h1 : preSkip opts n
  · simp [processNode, h1] at hMod
  · by_cases h3 : n.resolveThrows
    · simp [processNode, h1, hPass, h3] at hMod
    · by_cases hB : strIncludes n.inferredType.textAtNode "\x7b"
      · simp [processNode, h1, hPass, h3, hFlag, hB] at hMod
      · by_cases hAny : opts.ignoreAny &&
            strIncludes n.inferredType.textPlain "any"
        · simp [processNode, h1, hPass, h3, hFlag, hB, hAny] at hMod
        · by_cases hUnk : opts.ignoreUnknown &&
              strIncludes n.inferredType.textPlain "unknown"
          · simp [processNode, h1, hPass, h3, hFlag, hB, hAny, hUnk] at hMod
          · simp [processNode, h1, hPass, h3, hFlag, hB, hAny, hUnk, setAnn]
              at hAnn
            simp [← hAnn]
            simpa using hB

/-- Witness for C4: the annotation the engine writes for a function
resolving to `Promise<string>` under the enabled exclusion indeed contains
no brace, and the concrete wrapped-object examples behave as claimed. -/
theorem c4_anonymous_object_exclusion_witness :
    strIncludes "Promise<string>" "\x7b" = false ∧
    (processNode anonymousObjectOptions promiseObjectNode).modified = false ∧
    (processNode anonymousObjectOptions arrayObjectNode).modified = false ∧
    (processNode anonymousObjectOptions recordObjectNode).modified = false ∧
    (processNode defaultOptions promiseObjectNode).node.returnTypeNode =
      some "Promise<\x7b foo: string; \x7d>" :=
  c4_anonymous_object_exclusion_sees_through_wrappers anonymousObjectOptions
    promiseStringNode "Promise<string>" rfl rfl rfl rfl

/-- Claim C6 (refuted): the claim says the passthrough shortcut applies
exactly when the block body's sole statement is `return <identifier>`.  The
newest engine instead tests for exactly one return-statement descendant:
`function passesObjThrough(x: \x7b a: string \x7d) \x7b doSomething();
return x \x7d` has a two-statement body — its sole statement is not a
return — yet the shortcut fires and writes the parameter's declared type
verbatim, observably so because the enabled anonymous-object exclusion
would have skipped the node on the inference path. -/
theorem c6_passthrough_fires_beyond_sole_statement :
    passesObjThroughNode.body =
      some (.block [.otherStmt [], .returnStmt (some (.ident "x"))]) ∧
    (processNode anonymousObjectOptions passesObjThroughNode).modified =
      true ∧
    (processNode anonymousObjectOptions
        passesObjThroughNode).node.returnTypeNode =
      some "\x7b a: string \x7d" :=
  ⟨rfl, rfl, rfl⟩

/-- Claim C6 as amended: under default options, for every candidate node
surviving the filters, the passthrough shortcut fires exactly when the body
has exactly one return-statement descendant whose expression is an
identifier naming a declared-typed parameter (or the concise arrow body is
such an identifier), and then the annotation is that parameter's declared
type text verbatim; in every other case the annotation written is the
oracle's full-inference rendering. -/
theorem c6_passthrough_on_single_return_descendant (n : CandidateNode)
    (paramTypeText : String) :
    (preSkip defaultOptions n = false →
      passthroughOf n = some paramTypeText →
      processNode defaultOptions n = ⟨setAnn n paramTypeText, true, none⟩) ∧
    (preSkip defaultOptions n = false →
      passthroughOf n = none →
      n.resolveThrows = false →
      processNode defaultOptions n =
        ⟨setAnn n n.inferredType.textAtNode, true, none⟩) := by
  constructor
  · intro h1 h2
    have hov : defaultOptions.overwrite = false := rfl
    simp [processNode, h1, h2, hov]
  · intro h1 h2 h3
    have hov : defaultOptions.overwrite = false := rfl
    have hao : defaultOptions.ignoreAnonymousObjects = false := rfl
    have han : defaultOptions.ignoreAny = false := rfl
    have hun : defaultOptions.ignoreUnknown = false := rfl
    simp [processNode, h1, h2, h3, hov, hao, han, hun]

/-- Witness for the amended C6: `function id<T>(x: T) { return x }` is
annotated with the literal declared parameter type `T`. -/
theorem c6_passthrough_on_single_return_descendant_witness :
    processNode defaultOptions idNode = ⟨setAnn idNode "T", true, none⟩ :=
  (c6_passthrough_on_single_return_descendant idNode "T").1 rfl rfl

/-- Claim C2 (refuted): the claim says no excluded node is ever mutated,
under every option set including `overwrite = true`.  In the legacy engine
(the newest behaves identically), `overwrite` clears the existing
annotation before the shape exclusions run: in a file holding
`function returnsAny(): string` (excluded by the enabled any-exclusion)
followed by an annotatable function, the excluded node's annotation is gone
from the persisted file. -/
theorem c2_overwrite_clears_excluded_node_annotation :
    annotatedAnyFile.nodes.map (fun n => n.returnTypeNode) =
      [some "string", none] ∧
    (legacyProcessFile overwriteAnyOptions annotatedAnyFile).saved = true ∧
    (legacyProcessFile overwriteAnyOptions annotatedAnyFile).file.nodes.map
        (fun n => n.returnTypeNode) =
      [none, some "string"] :=
  ⟨rfl, rfl, rfl⟩

/-- Claim C2 as amended: a node excluded by a pre-resolution predicate is
returned untouched under every option set, and with `overwrite` off every
node the engine does not annotate is returned untouched; but with
`overwrite` on, a node excluded only by a shape exclusion has already lost
its annotation (the refutation above shows the loss reaching the persisted
file). -/
theorem c2_excluded_nodes_untouched (opts : Options) (n : CandidateNode) :
    (legacyPreSkip opts n = true → legacyProcessNode opts n = ⟨n, false, none⟩) ∧
    (opts.overwrite = false → (legacyProcessNode opts n).modified = false →
      (legacyProcessNode opts n).node = n) := by
  constructor
  · intro h
    simp [legacyProcessNode, h]
  · intro hO hMod
    by_cases hp : legacyPreSkip opts n
    · simp [legacyProcessNode, hp]
    · by_cases hT : n.resolveThrows <;>
      by_cases s1 : opts.ignoreAnonymousObjects &&
          strStarts n.inferredType.textAtNode "\x7b" <;>
      by_cases s2 : opts.ignoreAny && n.inferredType.isAny <;>
      by_cases s3 : opts.ignoreUnknown && n.inferredType.isUnknown <;>
      simp [legacyProcessNode, hp, hO, hT, s1, s2, s3] at hMod ⊢

/-- Witness for the amended C2: an annotated any-returning node under the
enabled any-exclusion (without `overwrite`) is skipped by the
already-annotated predicate and returned untouched. -/
theorem c2_excluded_nodes_untouched_witness :
    legacyProcessNode ignoreAnyOptions annotatedAnyNode =
      ⟨annotatedAnyNode, false, none⟩ ∧
    (legacyProcessNode ignoreAnyOptions annotatedAnyNode).node =
      annotatedAnyNode :=
  ⟨(c2_excluded_nodes_untouched ignoreAnyOptions annotatedAnyNode).1 rfl,
   (c2_excluded_nodes_untouched ignoreAnyOptions annotatedAnyNode).2 rfl rfl⟩

/-- Claim C3 (refuted): the claim says that for every option set the second
run performs zero disk writes.  With `overwrite = true` on a one-node file,
the second run re-clears and re-annotates the node, raising the modified
flag, so the file is saved again — although the persisted content is
identical. -/
theorem c3_second_run_writes_under_overwrite :
    (legacyProcessFile overwriteOptions greetFile).saved = true ∧
    (legacyProcessFile overwriteOptions
        (runOnce overwriteOptions greetFile)).saved = true ∧
    runOnce overwriteOptions (runOnce overwriteOptions greetFile) =
      runOnce overwriteOptions greetFile :=
  ⟨rfl, rfl, rfl⟩

/-- Claim C3 as amended: running the legacy engine twice with the same
options persists output identical to running it once, for every option set;
and the second run performs zero disk writes whenever `overwrite` is off.
(With `overwrite` on the second run re-writes identical content, as the
refutation above shows.) -/
theorem c3_idempotent_content_and_conditional_nowrite (opts : Options)
    (f : SourceFile) :
    runOnce opts (runOnce opts f) = runOnce opts f ∧
    (opts.overwrite = false →
      (legacyProcessFile opts (runOnce opts f)).saved = false) :=
  ⟨runOnce_idem opts f, fun hO => legacy_second_nowrite opts f hO⟩

/-- Witness for the amended C3: on the concrete one-node file under default
options the second run changes nothing and writes nothing. -/
theorem c3_idempotent_content_witness :
    runOnce defaultOptions (runOnce defaultOptions greetFile) =
      runOnce defaultOptions greetFile ∧
    (legacyProcessFile defaultOptions
        (runOnce defaultOptions greetFile)).saved = false :=
  ⟨(c3_idempotent_content_and_conditional_nowrite defaultOptions greetFile).1,
   (c3_idempotent_content_and_conditional_nowrite defaultOptions
      greetFile).2 rfl⟩

/-- Claim C8 (refuted in one conjunct): the claim says a node whose
processing throws is skipped without mutation, logged, and the rest of the
file continues.  The catch, log and continuation are real, but with
`overwrite = true` the annotation was already cleared before the failing
`getReturnType` call: in a file holding an annotated throwing node followed
by an annotatable one, the run logs the node's path and 1-based position,
saves, and the throwing node's annotation is gone from the persisted
file. -/
theorem c8_error_after_overwrite_clearing_persists :
    throwingFile.nodes.map (fun n => n.returnTypeNode) =
      [some "number", none] ∧
    (legacyProcessFile overwriteOptions throwingFile).log =
      [("crash.ts", 3, 5)] ∧
    (legacyProcessFile overwriteOptions throwingFile).saved = true ∧
    (legacyProcessFile overwriteOptions throwingFile).file.nodes.map
        (fun n => n.returnTypeNode) =
      [none, some "string"] :=
  ⟨rfl, rfl, rfl, rfl⟩

/-- Claim C8 as amended: an exception while resolving a node that survived
the filters is caught; the node contributes no modification, the log
records its 1-based line and column, the file-level log pairs them with the
file path, and the remaining nodes of the file are processed as if the
throwing node were absent (the save decision is exactly the other nodes'),
so a single bad node never aborts the file or the run.  The node itself is
returned untouched whenever `overwrite` is off — with `overwrite` on its
existing annotation has already been cleared, as the refutation shows. -/
theorem c8_node_errors_logged_and_contained (opts : Options) (p : String)
    (xs ys : List CandidateNode) (n : CandidateNode)
    (hT : n.resolveThrows = true)
    (hp : legacyPreSkip opts n = false) :
    (legacyProcessNode opts n).modified = false ∧
    (legacyProcessNode opts n).logged = some (n.line, n.column) ∧
    (opts.overwrite = false → (legacyProcessNode opts n).node = n) ∧
    (p, n.line, n.column) ∈ (legacyProcessFile opts ⟨p, xs ++ n :: ys⟩).log ∧
    (legacyProcessFile opts ⟨p, xs ++ n :: ys⟩).saved =
      ((xs ++ ys).map (legacyProcessNode opts)).any
        (fun r => r.modified) := by
  have hmod : (legacyProcessNode opts n).modified = false := by
    simp [legacyProcessNode, hp, hT]
  have hlog : (legacyProcessNode opts n).logged = some (n.line, n.column) := by
    simp [legacyProcessNode, hp, hT]
  refine ⟨hmod, hlog, ?_, ?_, ?_⟩
  · intro hO
    simp [legacyProcessNode, hp, hT, hO]
  · simp only [legacyProcessFile, List.mem_filterMap]
    refine ⟨legacyProcessNode opts n, ?_, ?_⟩
    · exact List.mem_map_of_mem (legacyProcessNode opts)
        (List.mem_append_right xs (List.mem_cons_self n ys))
    · simp [hlog]
  · simp [legacyProcessFile, List.map_append, List.any_append, hmod]

/-- Witness for the amended C8: under default options an unannotated
throwing node placed before an annotatable node is logged at its 1-based
position, left untouched, and the other node alone decides the save. -/
theorem c8_node_errors_logged_witness :
    (legacyProcessNode defaultOptions throwingPlainNode).modified = false ∧
    (legacyProcessNode defaultOptions throwingPlainNode).logged =
      some (7, 2) ∧
    (legacyProcessNode defaultOptions throwingPlainNode).node =
      throwingPlainNode ∧
    ("crash.ts", 7, 2) ∈ (legacyProcessFile defaultOptions
      ⟨"crash.ts", [] ++ throwingPlainNode :: [normalTypeNode]⟩).log ∧
    (legacyProcessFile defaultOptions
        ⟨"crash.ts", [] ++ throwingPlainNode :: [normalTypeNode]⟩).saved =
      (([] ++ [normalTypeNode]).map
        (legacyProcessNode defaultOptions)).any (fun r => r.modified) := by
  have h := c8_node_errors_logged_and_contained defaultOptions "crash.ts"
    [] [normalTypeNode] throwingPlainNode rfl rfl
  exact ⟨h.1, h.2.1, h.2.2.1 rfl, h.2.2.2.1, h.2.2.2.2⟩
